import Mathlib

/-!
Verification of the provet repository's consultation-data pipeline.

The Python source is shallowly embedded: decoded JSON documents (the values
produced by json.load) are modelled by the inductive type PyVal, Python
exceptions by PyError, and every fallible source function by a Lean
function into Except PyError.  Dataclass fields keep PyVal values, because
the Python dataclasses perform no type coercion or validation: whatever
value dict.get returns is stored verbatim.  The file system is an
association list from path strings to file contents; json.dump is modelled
by a content constructor that records the decoded document and the
indentation it was written with (the textual serializer of the json module
is an external collaborator).
-/

namespace Provet

/-- Python runtime values as decoded from JSON by json.load:
null, bool, number, string, array, object. -/
inductive PyVal where
  | none
  | bool (b : Bool)
  | int (n : Int)
  | str (s : String)
  | list (xs : List PyVal)
  | dict (kvs : List (String × PyVal))
deriving Repr

/-- Python exceptions raised (or wrapped) by the embedded code. -/
inductive PyError where
  | fileNotFoundError (msg : String)
  | valueError (msg : String)
  | attributeError (msg : String)
  | typeError (msg : String)
  | keyError (msg : String)
  | exception (msg : String)
  | httpException (status : Nat) (detail : String)
deriving Repr

/-- Python str(e) on an exception: the single message argument; FastAPI's
HTTPException renders as "status: detail". -/
def PyError.message : PyError → String
  | .fileNotFoundError m => m
  | .valueError m => m
  | .attributeError m => m
  | .typeError m => m
  | .keyError m => m
  | .exception m => m
  | .httpException s d => toString s ++ ": " ++ d

/-- Python `v.get(k, dflt)`: succeeds only on a dict (any other receiver
raises AttributeError, as e.g. list or str objects have no `get`). -/
def pyGet (v : PyVal) (k : String) (dflt : PyVal) : Except PyError PyVal :=
  match v with
  | .dict kvs => .ok ((List.lookup k kvs).getD dflt)
  | _ => .error (.attributeError "object has no attribute get")

/-- Python `for x in v`: a list yields its elements, a string its
one-character substrings, a dict its keys; other values raise TypeError. -/
def pyIter (v : PyVal) : Except PyError (List PyVal) :=
  match v with
  | .list xs => .ok xs
  | .str s => .ok (s.toList.map (fun c => .str (String.mk [c])))
  | .dict kvs => .ok (kvs.map (fun kv => .str kv.1))
  | _ => .error (.typeError "object is not iterable")

/-- data_models.Patient (fields hold whatever the source supplied,
the dataclass performs no coercion). -/
structure Patient where
  name : PyVal
  species : PyVal
  breed : PyVal
  gender : PyVal
  neutered : PyVal
  date_of_birth : PyVal
  weight : PyVal
  microchip : PyVal
deriving Repr

/-- data_models.ClinicalNote. -/
structure ClinicalNote where
  note : PyVal
  type : PyVal
deriving Repr

/-- data_models.Procedure. -/
structure Procedure where
  name : PyVal
  date : PyVal
  time : PyVal
  code : PyVal
  quantity : PyVal
  total_price : PyVal
  currency : PyVal
deriving Repr

/-- data_models.Medicine. -/
structure Medicine where
  name : PyVal
  dosage : PyVal
  instructions : PyVal
deriving Repr

/-- data_models.Prescription. -/
structure Prescription where
  name : PyVal
  dosage : PyVal
  instructions : PyVal
  duration : PyVal
deriving Repr

/-- data_models.Diagnostic. -/
structure Diagnostic where
  name : PyVal
  result : PyVal
  notes : PyVal
deriving Repr

/-- data_models.TreatmentItems; foods and supplies are taken from the
source unvalidated, so they stay raw PyVal. -/
structure TreatmentItems where
  procedures : List Procedure
  medicines : List Medicine
  prescriptions : List Prescription
  foods : PyVal
  supplies : PyVal
deriving Repr

/-- data_models.Consultation. -/
structure Consultation where
  date : PyVal
  time : PyVal
  reason : PyVal
  type : PyVal
  clinical_notes : List ClinicalNote
  treatment_items : TreatmentItems
  diagnostics : List Diagnostic
deriving Repr

/-- data_models.ConsultationData. -/
structure ConsultationData where
  patient : Patient
  consultation : Consultation
deriving Repr

/-- Loop body of from_dict for one clinical-note entry
(data_models.py lines 199-205). -/
def mkClinicalNote (nd : PyVal) : Except PyError ClinicalNote := do
  let note ← pyGet nd "note" (.str "")
  let ty ← pyGet nd "type" (.str "general")
  pure ⟨note, ty⟩

/-- Loop body of from_dict for one procedure entry (lines 212-223). -/
def mkProcedure (pd : PyVal) : Except PyError Procedure := do
  let name ← pyGet pd "name" (.str "")
  let date ← pyGet pd "date" .none
  let time ← pyGet pd "time" .none
  let code ← pyGet pd "code" .none
  let quantity ← pyGet pd "quantity" (.int 1)
  let total_price ← pyGet pd "total_price" .none
  let currency ← pyGet pd "currency" .none
  pure ⟨name, date, time, code, quantity, total_price, currency⟩

/-- Loop body of from_dict for one medicine entry (lines 227-234). -/
def mkMedicine (md : PyVal) : Except PyError Medicine := do
  let name ← pyGet md "name" (.str "")
  let dosage ← pyGet md "dosage" .none
  let instructions ← pyGet md "instructions" .none
  pure ⟨name, dosage, instructions⟩

/-- Loop body of from_dict for one prescription entry (lines 238-246). -/
def mkPrescription (rx : PyVal) : Except PyError Prescription := do
  let name ← pyGet rx "name" (.str "")
  let dosage ← pyGet rx "dosage" .none
  let instructions ← pyGet rx "instructions" .none
  let duration ← pyGet rx "duration" .none
  pure ⟨name, dosage, instructions, duration⟩

/-- Loop body of from_dict for one diagnostic entry (lines 258-265). -/
def mkDiagnostic (dd : PyVal) : Except PyError Diagnostic := do
  let name ← pyGet dd "name" (.str "")
  let result ← pyGet dd "result" .none
  let notes ← pyGet dd "notes" .none
  pure ⟨name, result, notes⟩

/-- A `for _ in v: ...append(f(_))` accumulation loop of from_dict. -/
def mapEntries {β : Type} (f : PyVal → Except PyError β) (v : PyVal) :
    Except PyError (List β) := do
  let items ← pyIter v
  items.mapM f

/-- Patient construction part of ConsultationData.from_dict
(data_models.py lines 183-193). -/
def mkPatient (data : PyVal) : Except PyError Patient := do
  let pd ← pyGet data "patient" (.dict [])
  let name ← pyGet pd "name" (.str "")
  let species ← pyGet pd "species" (.str "")
  let breed ← pyGet pd "breed" (.str "")
  let gender ← pyGet pd "gender" (.str "")
  let neutered ← pyGet pd "neutered" (.bool false)
  let date_of_birth ← pyGet pd "date_of_birth" (.str "")
  let weight ← pyGet pd "weight" (.str "")
  let microchip ← pyGet pd "microchip" .none
  pure ⟨name, species, breed, gender, neutered, date_of_birth, weight, microchip⟩

/-- Consultation construction part of ConsultationData.from_dict
(data_models.py lines 195-275), in source evaluation order: clinical
notes, treatment items (procedures, medicines, prescriptions, foods,
supplies), diagnostics, then the scalar consultation fields. -/
def mkConsultation (data : PyVal) : Except PyError Consultation := do
  let cd ← pyGet data "consultation" (.dict [])
  let notesV ← pyGet cd "clinical_notes" (.list [])
  let clinical_notes ← mapEntries mkClinicalNote notesV
  let tiV ← pyGet cd "treatment_items" (.dict [])
  let procsV ← pyGet tiV "procedures" (.list [])
  let procedures ← mapEntries mkProcedure procsV
  let medsV ← pyGet tiV "medicines" (.list [])
  let medicines ← mapEntries mkMedicine medsV
  let rxV ← pyGet tiV "prescriptions" (.list [])
  let prescriptions ← mapEntries mkPrescription rxV
  let foods ← pyGet tiV "foods" (.list [])
  let supplies ← pyGet tiV "supplies" (.list [])
  let diagsV ← pyGet cd "diagnostics" (.list [])
  let diagnostics ← mapEntries mkDiagnostic diagsV
  let date ← pyGet cd "date" (.str "")
  let time ← pyGet cd "time" (.str "")
  let reason ← pyGet cd "reason" (.str "")
  let ty ← pyGet cd "type" (.str "")
  pure ⟨date, time, reason, ty, clinical_notes,
        ⟨procedures, medicines, prescriptions, foods, supplies⟩, diagnostics⟩

/-- ConsultationData.from_dict (data_models.py lines 173-277). -/
def from_dict (data : PyVal) : Except PyError ConsultationData := do
  let patient ← mkPatient data
  let consultation ← mkConsultation data
  pure ⟨patient, consultation⟩

/-- Values stored in a template-context mapping. -/
inductive CtxVal where
  | pat (p : Patient)
  | cons (c : Consultation)
  | notes (ns : List ClinicalNote)
  | procs (ps : List Procedure)
  | meds (ms : List Medicine)
  | rxs (rs : List Prescription)
  | diags (ds : List Diagnostic)
  | str (s : String)
deriving Repr

/-- A Python dict used as template context (insertion ordered). -/
abbrev Context : Type := List (String × CtxVal)

/-- ConsultationData.to_template_context (data_models.py lines 279-293). -/
def to_template_context (d : ConsultationData) : Context :=
  [("patient", .pat d.patient),
   ("consultation", .cons d.consultation),
   ("clinical_notes", .notes d.consultation.clinical_notes),
   ("procedures", .procs d.consultation.treatment_items.procedures),
   ("medicines", .meds d.consultation.treatment_items.medicines),
   ("prescriptions", .rxs d.consultation.treatment_items.prescriptions),
   ("diagnostics", .diags d.consultation.diagnostics)]

/-- Python `ctx[k] = v` on a dict with unique keys: overwrite in place if
the key exists, else append (insertion order). -/
def dictSet (kvs : Context) (k : String) (v : CtxVal) : Context :=
  if (List.lookup k (kvs : List (String × CtxVal))).isSome then
    (kvs : List (String × CtxVal)).map (fun kv => if kv.1 = k then (k, v) else kv)
  else (kvs : List (String × CtxVal)) ++ [(k, v)]

/-- Configuration values read from config_manager that the embedded code
uses (utils/config.py): the custom system instruction and the output
directory (key "solution_dir", default "solution"). -/
structure Config where
  custom_instruction : String
  solution_dir : String

/-- Bytes of one file: either bytes that json.load rejects
(JSONDecodeError), or bytes whose decoded JSON document is `v`, written by
json.dump with the recorded indentation (the json module's textual
serializer and parser are external collaborators, modelled at the level of
the decoded document). -/
inductive FileContent where
  | undecodable (raw : String)
  | jsonText (v : PyVal) (indent : Option Nat)
deriving Repr

/-- The file system: paths mapped to file contents. -/
abbrev FS : Type := List (String × FileContent)

def lookupFS (fs : FS) (p : String) : Option FileContent :=
  List.lookup p (fs : List (String × FileContent))

/-- open(p, "w") followed by a full write: truncate/replace or create. -/
def setFile (fs : FS) (p : String) (c : FileContent) : FS :=
  if (lookupFS fs p).isSome then
    (fs : List (String × FileContent)).map (fun e => if e.1 = p then (p, c) else e)
  else (fs : List (String × FileContent)) ++ [(p, c)]

/-- `if path.exists(): path.unlink()`: removes the entry when present,
a silent no-op when absent. -/
def unlinkIfExists (fs : FS) (p : String) : FS :=
  (fs : List (String × FileContent)).filter (fun e => ! (e.1 == p))

/-- Python Path(p).name: the last nonempty path component. -/
def pathName (p : String) : String :=
  (((p.splitOn "/").filter (fun s => ¬ s.isEmpty)).getLastD "")

/-- Python Path(p).stem: the name without its last suffix; a suffix is a
final ".ext" whose dot is neither the first nor the last character of the
name (CPython's PurePath.suffix rule). -/
def pathStem (p : String) : String :=
  let n := pathName p
  let cs := n.toList
  match cs.reverse.findIdx? (fun c => c = '.') with
  | Option.none => n
  | some j =>
    let i := cs.length - 1 - j
    if 0 < i ∧ i < cs.length - 1 then String.mk (cs.take i) else n

/-- Python `a or b` on an optional string (None and "" are falsy). -/
def pyOrStr (a : Option String) (b : String) : String :=
  match a with
  | some s => if s.isEmpty then b else s
  | Option.none => b

/-- IOManager.load_consultation_data (io_manager.py lines 21-45): missing
file re-raised as FileNotFoundError, undecodable bytes as
ValueError("... contains invalid JSON."), and any exception escaping
from_dict wrapped into a generic ValueError. -/
def load_consultation_data (fs : FS) (file_path : String) :
    Except PyError ConsultationData :=
  match lookupFS fs file_path with
  | Option.none =>
    .error (.fileNotFoundError ("🔍 File " ++ file_path ++ " not found."))
  | some (.undecodable _) =>
    .error (.valueError ("📋 File " ++ file_path ++ " contains invalid JSON."))
  | some (.jsonText v _) =>
    match from_dict v with
    | .ok d => .ok d
    | .error e =>
      .error (.valueError ("❌ Error loading consultation data: " ++ e.message))

/-- IOManager.save_discharge_note (io_manager.py lines 47-84): build the
envelope {"discharge_note": note}, name the file stem + "_discharge.json"
under `output_dir or config["solution_dir"]`, and json.dump it with
indent=4.  The write itself is modelled as always succeeding, so the
ValueError branch for write failures is not represented. -/
def save_discharge_note (cfg : Config) (fs : FS) (discharge_note : String)
    (input_file : String) (output_dir : Option String) :
    (Except PyError String) × FS :=
  let od := pyOrStr output_dir cfg.solution_dir
  let output_path := od ++ "/" ++ pathStem input_file ++ "_discharge.json"
  let fs2 := setFile fs output_path
    (.jsonText (.dict [("discharge_note", .str discharge_note)]) (some 4))
  (.ok output_path, fs2)

/-- LLMService.generate_discharge_note (llm_service.py lines 39-77): the
service first writes config["custom_instruction"] into the caller's
context dict, then renders the two templates and calls the OpenAI API;
rendering, the API call and the .strip() of the reply are external
collaborators, abstracted into `oracle`.  The function returns the result
together with the context dict as the caller observes it afterwards (the
Python code mutates the dict in place); any exception is wrapped into
Exception("Error generating discharge note: ..."). -/
def generate_discharge_note (oracle : Context → Except PyError String)
    (cfg : Config) (context : Context) : (Except PyError String) × Context :=
  let ctx2 := dictSet context "custom_instruction" (.str cfg.custom_instruction)
  match oracle ctx2 with
  | .ok s => (.ok s, ctx2)
  | .error e =>
    (.error (.exception ("Error generating discharge note: " ++ e.message)), ctx2)

/-- DischargeNoteGenerator.process_file (app.py lines 32-60): load → map →
project → generate → save, any exception wrapped into one ValueError whose
prefix is copied byte-for-byte from the source (the source file holds the
literal characters "âŒ" there, not the emoji of the other modules). -/
def process_file (oracle : Context → Except PyError String) (cfg : Config)
    (fs : FS) (file_path : String) : (Except PyError String) × FS :=
  match load_consultation_data fs file_path with
  | .error e =>
    (.error (.valueError ("âŒ Error processing file " ++ file_path ++ ": "
      ++ e.message)), fs)
  | .ok data =>
    let context := to_template_context data
    match generate_discharge_note oracle cfg context with
    | (.error e, _) =>
      (.error (.valueError ("âŒ Error processing file " ++ file_path ++ ": "
        ++ e.message)), fs)
    | (.ok note, _) =>
      match save_discharge_note cfg fs note file_path Option.none with
      | (.ok output_path, fs2) => (.ok output_path, fs2)
      | (.error e, fs2) =>
        (.error (.valueError ("âŒ Error processing file " ++ file_path ++ ": "
          ++ e.message)), fs2)

/-- api/main.py UPLOAD_DIR. -/
def UPLOAD_DIR : String := "temp_uploads"

/-- Python str.endswith: does the string end with the given suffix? -/
def strEndsWith (s post : String) : Bool :=
  if post.length ≤ s.length then
    List.drop (s.length - post.length) s.toList == post.toList
  else false

/-- The per-request temporary upload path
UPLOAD_DIR/consultation_{id(request)}.json of the /generate endpoint. -/
def tempName (reqId : Nat) : String :=
  UPLOAD_DIR ++ "/consultation_" ++ toString reqId ++ ".json"

/-- Reading the generated note back (api/main.py lines 103-106 and
152-154): open the output file, json.load it, index ["discharge_note"]
and require a string for the response model. -/
def read_discharge_note (fs : FS) (p : String) : Except PyError String :=
  match lookupFS fs p with
  | Option.none => .error (.fileNotFoundError p)
  | some (.undecodable _) => .error (.valueError "invalid JSON")
  | some (.jsonText v _) =>
    match v with
    | .dict kvs =>
      match List.lookup "discharge_note" kvs with
      | some (.str s) => .ok s
      | some _ => .error (.typeError "discharge_note is not a string")
      | Option.none => .error (.keyError "discharge_note")
    | _ => .error (.typeError "value is not subscriptable by key")

/-- api/main.py cleanup_files (lines 167-180): unlink each path if it
exists; unlink errors are logged and swallowed, so the function is total. -/
def cleanup_files (fs : FS) (input_path output_path : String) : FS :=
  unlinkIfExists (unlinkIfExists fs input_path) output_path

/-- api/main.py generate_discharge_note endpoint (lines 88-116): dump the
request body to UPLOAD_DIR/consultation_{id(request)}.json (id(request)
modelled by reqId), process it, read the note back, and in a finally
block unlink the temp file and — only once it has been assigned — the
output file; any exception becomes HTTPException(500, str(e)). -/
def generate_endpoint (oracle : Context → Except PyError String) (cfg : Config)
    (fs : FS) (reqId : Nat) (doc : PyVal) : (Except PyError String) × FS :=
  let temp_file := tempName reqId
  let fs1 := setFile fs temp_file (.jsonText doc Option.none)
  match process_file oracle cfg fs1 temp_file with
  | (.error e, fs2) =>
    (.error (.httpException 500 e.message), unlinkIfExists fs2 temp_file)
  | (.ok output_path, fs2) =>
    match read_discharge_note fs2 output_path with
    | .ok note =>
      (.ok note, unlinkIfExists (unlinkIfExists fs2 temp_file) output_path)
    | .error e =>
      (.error (.httpException 500 e.message),
        unlinkIfExists (unlinkIfExists fs2 temp_file) output_path)

/-- api/main.py upload_consultation_file endpoint (lines 119-164): reject
filenames without a ".json" suffix (the HTTPException(400) raised inside
the try block is itself caught by the `except Exception` clause and
re-raised as a 500), save the upload under UPLOAD_DIR, process it, read
the note back, and schedule cleanup_files as a background task only when
a BackgroundTasks instance was provided (bg); there is no finally block,
so nothing is cleaned up on a failing run. -/
def upload_endpoint (oracle : Context → Except PyError String) (cfg : Config)
    (fs : FS) (filename : String) (content : FileContent) (bg : Bool) :
    (Except PyError String) × FS :=
  if strEndsWith filename ".json" then
    let file_path := UPLOAD_DIR ++ "/" ++ filename
    let fs1 := setFile fs file_path content
    match process_file oracle cfg fs1 file_path with
    | (.error e, fs2) => (.error (.httpException 500 e.message), fs2)
    | (.ok output_path, fs2) =>
      match read_discharge_note fs2 output_path with
      | .error e => (.error (.httpException 500 e.message), fs2)
      | .ok note =>
        let fs3 := if bg then cleanup_files fs2 file_path output_path else fs2
        (.ok note, fs3)
  else
    (.error (.httpException 500
      (PyError.message (.httpException 400 "Only JSON files are supported"))), fs)

/-- The attributes of class DischargeNoteGenerator (app.py lines 14-70):
only __init__ and process_file are defined. -/
def generatorHasAttr (m : String) : Bool :=
  m = "__init__" || m = "process_file"

/-- Python attribute lookup generator.update_template_dir: raises
AttributeError because the class does not define that method. -/
def getattrUpdateTemplateDir : Except PyError Unit :=
  if generatorHasAttr "update_template_dir" then .ok ()
  else .error (.attributeError
    "DischargeNoteGenerator object has no attribute update_template_dir")

/-- Parsed CLI arguments (provet/__main__.py parse_args). -/
structure CliArgs where
  file : String
  template_dir : Option String
  output_dir : Option String

/-- provet/__main__.py main (lines 41-64): when --template-dir is given,
generator.update_template_dir is called (and fails, the attribute does
not exist); args.output_dir is parsed but never read.  Any exception is
printed and turned into exit code 1; success returns 0.  The result is
the exit code together with the file system after the run. -/
def cli_main (oracle : Context → Except PyError String) (cfg : Config)
    (fs : FS) (args : CliArgs) : Nat × FS :=
  match args.template_dir with
  | some _ =>
    match getattrUpdateTemplateDir with
    | .error _ => (1, fs)
    | .ok _ =>
      match process_file oracle cfg fs args.file with
      | (.ok _, fs2) => (0, fs2)
      | (.error _, fs2) => (1, fs2)
  | Option.none =>
    match process_file oracle cfg fs args.file with
    | (.ok _, fs2) => (0, fs2)
    | (.error _, fs2) => (1, fs2)

/-- Is the value a JSON object? -/
def isDictV : PyVal → Bool
  | .dict _ => true
  | _ => false

/-- Is the value a JSON array all of whose elements are objects? -/
def isListOfDicts : PyVal → Bool
  | .list xs => xs.all isDictV
  | _ => false

/-- The key is absent, or its value satisfies the predicate. -/
def keyOk (kvs : List (String × PyVal)) (k : String) (p : PyVal → Bool) : Bool :=
  match List.lookup k kvs with
  | Option.none => true
  | some v => p v

/-- Expected shape of a present treatment_items value: an object whose
present procedures/medicines/prescriptions are arrays of objects. -/
def treatmentShapeB : PyVal → Bool
  | .dict tkvs =>
    keyOk tkvs "procedures" isListOfDicts &&
    keyOk tkvs "medicines" isListOfDicts &&
    keyOk tkvs "prescriptions" isListOfDicts
  | _ => false

/-- Expected shape of a present consultation value. -/
def consultationShapeB : PyVal → Bool
  | .dict ckvs =>
    keyOk ckvs "clinical_notes" isListOfDicts &&
    keyOk ckvs "treatment_items" treatmentShapeB &&
    keyOk ckvs "diagnostics" isListOfDicts
  | _ => false

/-- A document on which every substructure from_dict touches has the shape
the code expects wherever it is present (every key may be absent). -/
def WellShapedB : PyVal → Bool
  | .dict kvs =>
    keyOk kvs "patient" isDictV &&
    keyOk kvs "consultation" consultationShapeB
  | _ => false

/-- A document whose single clinical note supplies `type` as the empty
string. -/
def emptyTypeNoteDoc : PyVal :=
  .dict [("consultation", .dict [("clinical_notes",
    .list [.dict [("note", .str "x"), ("type", .str "")]])])]

/-- The concrete document of the specification's §8 example: patient Max,
consultation Wellness, no clinical notes, no treatment items. -/
def specMaxDoc : PyVal :=
  .dict [("patient", .dict
            [("name", .str "Max"), ("species", .str "Dog"),
             ("breed", .str "Lab"), ("gender", .str "Male"),
             ("neutered", .bool true), ("date_of_birth", .str "2020-01-01"),
             ("weight", .str "10kg")]),
         ("consultation", .dict
            [("date", .str "2024-01-01"), ("time", .str "09:00"),
             ("reason", .str "Checkup"), ("type", .str "Wellness")])]

/-- Does the clinical note carry the type "general"? -/
def typeIsGeneral (cn : ClinicalNote) : Bool :=
  match cn.type with
  | .str s => s == "general"
  | _ => false

/-- The claim of C1 evaluated at emptyTypeNoteDoc: its one note supplies
an empty type, so the claim demands the mapped type be exactly
"general". -/
def c1CheckEmptyTypeDoc : Bool :=
  match from_dict emptyTypeNoteDoc with
  | .ok cd => cd.consultation.clinical_notes.all typeIsGeneral
  | .error _ => false

/-- The record that mapping the empty JSON object produces: every field at
its default. -/
def emptyDocRecord : ConsultationData :=
  ⟨⟨.str "", .str "", .str "", .str "", .bool false, .str "", .str "",
    PyVal.none⟩,
   ⟨.str "", .str "", .str "", .str "", [],
    ⟨[], [], [], .list [], .list []⟩, []⟩⟩

/-- Did the computation succeed (no exception escape)? -/
def exceptIsOk {ε α : Type} : Except ε α → Bool
  | .ok _ => true
  | .error _ => false

/-! ### Shared lemmas about the embedding -/

theorem ok_bind {ε α β : Type} (a : α) (f : α → Except ε β) :
    (Except.ok a : Except ε α) >>= f = f a := rfl

theorem error_bind {ε α β : Type} (e : ε) (f : α → Except ε β) :
    (Except.error e : Except ε α) >>= f = Except.error e := rfl

theorem pyGet_dict (kvs : List (String × PyVal)) (k : String) (d : PyVal) :
    pyGet (.dict kvs) k d = .ok ((List.lookup k kvs).getD d) := rfl

theorem mkClinicalNote_dict (kvs : List (String × PyVal)) :
    mkClinicalNote (.dict kvs) =
      .ok ⟨(List.lookup "note" kvs).getD (.str ""),
           (List.lookup "type" kvs).getD (.str "general")⟩ := rfl

theorem mkProcedure_dict (kvs : List (String × PyVal)) :
    mkProcedure (.dict kvs) =
      .ok ⟨(List.lookup "name" kvs).getD (.str ""),
           (List.lookup "date" kvs).getD .none,
           (List.lookup "time" kvs).getD .none,
           (List.lookup "code" kvs).getD .none,
           (List.lookup "quantity" kvs).getD (.int 1),
           (List.lookup "total_price" kvs).getD .none,
           (List.lookup "currency" kvs).getD .none⟩ := rfl

theorem mkMedicine_dict (kvs : List (String × PyVal)) :
    mkMedicine (.dict kvs) =
      .ok ⟨(List.lookup "name" kvs).getD (.str ""),
           (List.lookup "dosage" kvs).getD .none,
           (List.lookup "instructions" kvs).getD .none⟩ := rfl

theorem mkPrescription_dict (kvs : List (String × PyVal)) :
    mkPrescription (.dict kvs) =
      .ok ⟨(List.lookup "name" kvs).getD (.str ""),
           (List.lookup "dosage" kvs).getD .none,
           (List.lookup "instructions" kvs).getD .none,
           (List.lookup "duration" kvs).getD .none⟩ := rfl

theorem mkDiagnostic_dict (kvs : List (String × PyVal)) :
    mkDiagnostic (.dict kvs) =
      .ok ⟨(List.lookup "name" kvs).getD (.str ""),
           (List.lookup "result" kvs).getD .none,
           (List.lookup "notes" kvs).getD .none⟩ := rfl

theorem mkPatient_eq (data : PyVal) (pkvs : List (String × PyVal))
    (h : pyGet data "patient" (.dict []) = .ok (.dict pkvs)) :
    mkPatient data = .ok
      ⟨(List.lookup "name" pkvs).getD (.str ""),
       (List.lookup "species" pkvs).getD (.str ""),
       (List.lookup "breed" pkvs).getD (.str ""),
       (List.lookup "gender" pkvs).getD (.str ""),
       (List.lookup "neutered" pkvs).getD (.bool false),
       (List.lookup "date_of_birth" pkvs).getD (.str ""),
       (List.lookup "weight" pkvs).getD (.str ""),
       (List.lookup "microchip" pkvs).getD .none⟩ := by
  unfold mkPatient
  rw [h]
  rfl

theorem mapM_ok_of_all {ε α β : Type} (f : α → Except ε β) :
    ∀ xs : List α, (∀ x ∈ xs, ∃ b, f x = .ok b) →
      ∃ ys, xs.mapM f = .ok ys := by
  intro xs
  induction xs with
  | nil => exact fun _ => ⟨[], rfl⟩
  | cons x xs ih =>
    intro h
    obtain ⟨b, hb⟩ := h x (List.mem_cons_self x xs)
    obtain ⟨bs, hbs⟩ := ih (fun y hy => h y (List.mem_cons_of_mem x hy))
    refine ⟨b :: bs, ?_⟩
    rw [List.mapM_cons, hb, ok_bind, hbs, ok_bind]
    rfl

theorem mapM_ok_mem {ε α β : Type} (f : α → Except ε β) :
    ∀ (xs : List α) (ys : List β), xs.mapM f = .ok ys →
      ∀ y ∈ ys, ∃ x, f x = .ok y := by
  intro xs
  induction xs with
  | nil =>
    intro ys h y hy
    rw [List.mapM_nil] at h
    have h2 : (Except.ok ([] : List β) : Except ε (List β)) = .ok ys := h
    injection h2 with h3
    subst h3
    cases hy
  | cons x xs ih =>
    intro ys h y hy
    rw [List.mapM_cons] at h
    cases hfx : f x with
    | error e => rw [hfx, error_bind] at h; cases h
    | ok b =>
      rw [hfx, ok_bind] at h
      cases hrest : List.mapM f xs with
      | error e => rw [hrest, error_bind] at h; cases h
      | ok bs =>
        rw [hrest, ok_bind] at h
        have h2 : (Except.ok (b :: bs) : Except ε (List β)) = .ok ys := h
        injection h2 with h3
        subst h3
        rw [List.mem_cons] at hy
        rcases hy with rfl | hy
        · exact ⟨x, hfx⟩
        · exact ih bs hrest y hy

theorem mapEntries_ok_of_dicts {β : Type} (f : PyVal → Except PyError β)
    (hf : ∀ kvs, ∃ b, f (.dict kvs) = .ok b) (v : PyVal)
    (hv : isListOfDicts v = true) : ∃ ys, mapEntries f v = .ok ys := by
  cases v with
  | list xs =>
    have hall : ∀ x ∈ xs, ∃ b, f x = .ok b := by
      intro x hx
      have hxd : isDictV x = true := by
        have := List.all_eq_true.mp (by simpa [isListOfDicts] using hv) x hx
        simpa using this
      cases x with
      | dict kvs => exact hf kvs
      | none => simp [isDictV] at hxd
      | bool b => simp [isDictV] at hxd
      | int n => simp [isDictV] at hxd
      | str s => simp [isDictV] at hxd
      | list ys => simp [isDictV] at hxd
    obtain ⟨ys, hys⟩ := mapM_ok_of_all f xs hall
    refine ⟨ys, ?_⟩
    unfold mapEntries
    rw [show pyIter (.list xs) = .ok xs from rfl, ok_bind, hys]
  | none => simp [isListOfDicts] at hv
  | bool b => simp [isListOfDicts] at hv
  | int n => simp [isListOfDicts] at hv
  | str s => simp [isListOfDicts] at hv
  | dict kvs => simp [isListOfDicts] at hv

theorem mapEntries_ok_mem {β : Type} (f : PyVal → Except PyError β)
    (v : PyVal) (ys : List β) (h : mapEntries f v = .ok ys) :
    ∀ y ∈ ys, ∃ x, f x = .ok y := by
  unfold mapEntries at h
  cases hit : pyIter v with
  | error e => rw [hit, error_bind] at h; cases h
  | ok items =>
    rw [hit, ok_bind] at h
    exact fun y hy => mapM_ok_mem f items ys h y hy

theorem lookup_map_set (p : String) (c : FileContent) :
    ∀ fs : FS, (lookupFS fs p).isSome = true →
      List.lookup p (fs.map (fun e => if e.1 = p then (p, c) else e)) = some c := by
  intro fs
  induction fs with
  | nil => intro h; simp [lookupFS] at h
  | cons e es ih =>
    intro h
    by_cases he : e.1 = p
    · rw [List.map_cons, if_pos he]
      simp [List.lookup]
    · rw [List.map_cons, if_neg he]
      have hne : (p == e.1) = false := by
        simp [he]
        exact fun h2 => he h2.symm
      simp only [List.lookup, hne]
      apply ih
      have heq : lookupFS (e :: es) p = List.lookup p es := by
        simp only [lookupFS, List.lookup, hne]
      rw [heq] at h
      exact h

theorem lookup_append_single (p : String) (c : FileContent) :
    ∀ fs : FS, lookupFS fs p = Option.none →
      List.lookup p (fs ++ [(p, c)]) = some c := by
  intro fs
  induction fs with
  | nil => intro _; simp [List.lookup]
  | cons e es ih =>
    intro h
    by_cases he : e.1 = p
    · exfalso
      simp [lookupFS, List.lookup, he] at h
    · have hne : (p == e.1) = false := by
        simp [he]
        exact fun h2 => he h2.symm
      rw [List.cons_append]
      simp only [List.lookup, hne]
      apply ih
      simp only [lookupFS, List.lookup, hne] at h
      exact h

theorem lookupFS_setFile_self (fs : FS) (p : String) (c : FileContent) :
    lookupFS (setFile fs p c) p = some c := by
  unfold setFile
  by_cases h : (lookupFS fs p).isSome
  · rw [if_pos h]
    exact lookup_map_set p c fs h
  · rw [if_neg h]
    apply lookup_append_single
    cases hl : lookupFS fs p with
    | none => rfl
    | some w => rw [hl] at h; simp at h

theorem lookupFS_unlink_self (fs : FS) (p : String) :
    lookupFS (unlinkIfExists fs p) p = Option.none := by
  unfold unlinkIfExists
  induction fs with
  | nil => rfl
  | cons e es ih =>
    by_cases he : e.1 = p
    · have hbe : (e.1 == p) = true := by simp [he]
      simp only [List.filter, hbe, Bool.not_true]
      exact ih
    · have hbe : (e.1 == p) = false := by simp [he]
      have hne : (p == e.1) = false := by
        simp [he]
        exact fun h2 => he h2.symm
      simp only [List.filter, hbe, Bool.not_false, lookupFS, List.lookup, hne]
      exact ih

theorem keyOk_lookup (kvs : List (String × PyVal)) (k : String)
    (p : PyVal → Bool) (v : PyVal) (h : keyOk kvs k p = true)
    (hl : List.lookup k kvs = some v) : p v = true := by
  unfold keyOk at h
  rw [hl] at h
  exact h

theorem getD_dict_of_keyOk (kvs : List (String × PyVal)) (k : String)
    (h : keyOk kvs k isDictV = true) :
    ∃ pkvs, (List.lookup k kvs).getD (.dict []) = .dict pkvs := by
  cases hl : List.lookup k kvs with
  | none => exact ⟨[], rfl⟩
  | some w =>
    have hw := keyOk_lookup kvs k isDictV w h hl
    cases w with
    | dict wkvs => exact ⟨wkvs, rfl⟩
    | none => simp [isDictV] at hw
    | bool b => simp [isDictV] at hw
    | int n => simp [isDictV] at hw
    | str s => simp [isDictV] at hw
    | list xs => simp [isDictV] at hw

theorem getD_list_of_keyOk (kvs : List (String × PyVal)) (k : String)
    (h : keyOk kvs k isListOfDicts = true) :
    isListOfDicts ((List.lookup k kvs).getD (.list [])) = true := by
  cases hl : List.lookup k kvs with
  | none => rfl
  | some w => exact keyOk_lookup kvs k isListOfDicts w h hl

theorem treatmentShape_getD (kvs : List (String × PyVal)) (k : String)
    (h : keyOk kvs k treatmentShapeB = true) :
    ∃ tkvs, (List.lookup k kvs).getD (.dict []) = .dict tkvs ∧
      keyOk tkvs "procedures" isListOfDicts = true ∧
      keyOk tkvs "medicines" isListOfDicts = true ∧
      keyOk tkvs "prescriptions" isListOfDicts = true := by
  cases hl : List.lookup k kvs with
  | none => exact ⟨[], rfl, rfl, rfl, rfl⟩
  | some w =>
    have hw := keyOk_lookup kvs k treatmentShapeB w h hl
    cases w with
    | dict tkvs =>
      simp only [treatmentShapeB, Bool.and_eq_true] at hw
      exact ⟨tkvs, rfl, hw.1.1, hw.1.2, hw.2⟩
    | none => simp [treatmentShapeB] at hw
    | bool b => simp [treatmentShapeB] at hw
    | int n => simp [treatmentShapeB] at hw
    | str s => simp [treatmentShapeB] at hw
    | list xs => simp [treatmentShapeB] at hw

theorem consultationShape_getD (kvs : List (String × PyVal)) (k : String)
    (h : keyOk kvs k consultationShapeB = true) :
    ∃ ckvs, (List.lookup k kvs).getD (.dict []) = .dict ckvs ∧
      keyOk ckvs "clinical_notes" isListOfDicts = true ∧
      keyOk ckvs "treatment_items" treatmentShapeB = true ∧
      keyOk ckvs "diagnostics" isListOfDicts = true := by
  cases hl : List.lookup k kvs with
  | none => exact ⟨[], rfl, rfl, rfl, rfl⟩
  | some w =>
    have hw := keyOk_lookup kvs k consultationShapeB w h hl
    cases w with
    | dict ckvs =>
      simp only [consultationShapeB, Bool.and_eq_true] at hw
      exact ⟨ckvs, rfl, hw.1.1, hw.1.2, hw.2⟩
    | none => simp [consultationShapeB] at hw
    | bool b => simp [consultationShapeB] at hw
    | int n => simp [consultationShapeB] at hw
    | str s => simp [consultationShapeB] at hw
    | list xs => simp [consultationShapeB] at hw

theorem mkConsultation_ok (data : PyVal) (ckvs tkvs : List (String × PyVal))
    (hc : pyGet data "consultation" (.dict []) = .ok (.dict ckvs))
    (ht : (List.lookup "treatment_items" ckvs).getD (.dict []) = .dict tkvs)
    (ns : List ClinicalNote)
    (hn : mapEntries mkClinicalNote
      ((List.lookup "clinical_notes" ckvs).getD (.list [])) = .ok ns)
    (ps : List Procedure)
    (hp : mapEntries mkProcedure
      ((List.lookup "procedures" tkvs).getD (.list [])) = .ok ps)
    (ms : List Medicine)
    (hm : mapEntries mkMedicine
      ((List.lookup "medicines" tkvs).getD (.list [])) = .ok ms)
    (rs : List Prescription)
    (hr : mapEntries mkPrescription
      ((List.lookup "prescriptions" tkvs).getD (.list [])) = .ok rs)
    (ds : List Diagnostic)
    (hd : mapEntries mkDiagnostic
      ((List.lookup "diagnostics" ckvs).getD (.list [])) = .ok ds) :
    mkConsultation data = .ok
      ⟨(List.lookup "date" ckvs).getD (.str ""),
       (List.lookup "time" ckvs).getD (.str ""),
       (List.lookup "reason" ckvs).getD (.str ""),
       (List.lookup "type" ckvs).getD (.str ""),
       ns,
       ⟨ps, ms, rs, (List.lookup "foods" tkvs).getD (.list []),
        (List.lookup "supplies" tkvs).getD (.list [])⟩,
       ds⟩ := by
  unfold mkConsultation
  simp only [hc, ok_bind, pyGet_dict, ht, hn, hp, hm, hr, hd]
  rfl

theorem mkConsultation_inv (data : PyVal) (c : Consultation)
    (h : mkConsultation data = .ok c) :
    (∀ cn ∈ c.clinical_notes, ∃ nd, mkClinicalNote nd = .ok cn) ∧
    (∀ pr ∈ c.treatment_items.procedures, ∃ pd, mkProcedure pd = .ok pr) := by
  unfold mkConsultation at h
  cases h0 : pyGet data "consultation" (.dict []) with
  | error e => rw [h0, error_bind] at h; cases h
  | ok cd =>
  rw [h0, ok_bind] at h
  cases h1 : pyGet cd "clinical_notes" (.list []) with
  | error e => rw [h1, error_bind] at h; cases h
  | ok notesV =>
  rw [h1, ok_bind] at h
  cases h2 : mapEntries mkClinicalNote notesV with
  | error e => rw [h2, error_bind] at h; cases h
  | ok ns =>
  rw [h2, ok_bind] at h
  cases h3 : pyGet cd "treatment_items" (.dict []) with
  | error e => rw [h3, error_bind] at h; cases h
  | ok tiV =>
  rw [h3, ok_bind] at h
  cases h4 : pyGet tiV "procedures" (.list []) with
  | error e => rw [h4, error_bind] at h; cases h
  | ok procsV =>
  rw [h4, ok_bind] at h
  cases h5 : mapEntries mkProcedure procsV with
  | error e => rw [h5, error_bind] at h; cases h
  | ok ps =>
  rw [h5, ok_bind] at h
  cases h6 : pyGet tiV "medicines" (.list []) with
  | error e => rw [h6, error_bind] at h; cases h
  | ok medsV =>
  rw [h6, ok_bind] at h
  cases h7 : mapEntries mkMedicine medsV with
  | error e => rw [h7, error_bind] at h; cases h
  | ok ms =>
  rw [h7, ok_bind] at h
  cases h8 : pyGet tiV "prescriptions" (.list []) with
  | error e => rw [h8, error_bind] at h; cases h
  | ok rxV =>
  rw [h8, ok_bind] at h
  cases h9 : mapEntries mkPrescription rxV with
  | error e => rw [h9, error_bind] at h; cases h
  | ok rs =>
  rw [h9, ok_bind] at h
  cases h10 : pyGet tiV "foods" (.list []) with
  | error e => rw [h10, error_bind] at h; cases h
  | ok foods =>
  rw [h10, ok_bind] at h
  cases h11 : pyGet tiV "supplies" (.list []) with
  | error e => rw [h11, error_bind] at h; cases h
  | ok supplies =>
  rw [h11, ok_bind] at h
  cases h12 : pyGet cd "diagnostics" (.list []) with
  | error e => rw [h12, error_bind] at h; cases h
  | ok diagsV =>
  rw [h12, ok_bind] at h
  cases h13 : mapEntries mkDiagnostic diagsV with
  | error e => rw [h13, error_bind] at h; cases h
  | ok ds =>
  rw [h13, ok_bind] at h
  cases h14 : pyGet cd "date" (.str "") with
  | error e => rw [h14, error_bind] at h; cases h
  | ok dateV =>
  rw [h14, ok_bind] at h
  cases h15 : pyGet cd "time" (.str "") with
  | error e => rw [h15, error_bind] at h; cases h
  | ok timeV =>
  rw [h15, ok_bind] at h
  cases h16 : pyGet cd "reason" (.str "") with
  | error e => rw [h16, error_bind] at h; cases h
  | ok reasonV =>
  rw [h16, ok_bind] at h
  cases h17 : pyGet cd "type" (.str "") with
  | error e => rw [h17, error_bind] at h; cases h
  | ok typeV =>
  rw [h17, ok_bind] at h
  have h18 : (Except.ok
      (⟨dateV, timeV, reasonV, typeV, ns, ⟨ps, ms, rs, foods, supplies⟩, ds⟩ :
        Consultation) : Except PyError Consultation) = .ok c := h
  injection h18 with h19
  subst h19
  constructor
  · exact fun cn hcn => mapEntries_ok_mem mkClinicalNote notesV ns h2 cn hcn
  · exact fun pr hpr => mapEntries_ok_mem mkProcedure procsV ps h5 pr hpr

theorem from_dict_inv (data : PyVal) (cd : ConsultationData)
    (h : from_dict data = .ok cd) :
    mkPatient data = .ok cd.patient ∧ mkConsultation data = .ok cd.consultation := by
  unfold from_dict at h
  cases hp : mkPatient data with
  | error e => rw [hp, error_bind] at h; cases h
  | ok p =>
  rw [hp, ok_bind] at h
  cases hc : mkConsultation data with
  | error e => rw [hc, error_bind] at h; cases h
  | ok c =>
  rw [hc, ok_bind] at h
  have h2 : (Except.ok (⟨p, c⟩ : ConsultationData) :
      Except PyError ConsultationData) = .ok cd := h
  injection h2 with h3
  subst h3
  exact ⟨rfl, rfl⟩

theorem lookupFS_unlink_of_none (fs : FS) (p q : String)
    (h : lookupFS fs p = Option.none) :
    lookupFS (unlinkIfExists fs q) p = Option.none := by
  unfold unlinkIfExists
  induction fs with
  | nil => rfl
  | cons e es ih =>
    have hne : (p == e.1) = false := by
      by_cases he : p = e.1
      · exfalso; simp [lookupFS, List.lookup, he] at h
      · simp [he]
    have h2 : lookupFS es p = Option.none := by
      simp only [lookupFS, List.lookup, hne] at h
      exact h
    by_cases heq : e.1 = q
    · have hbe : (e.1 == q) = true := by simp [heq]
      simp only [List.filter, hbe, Bool.not_true]
      exact ih h2
    · have hbe : (e.1 == q) = false := by simp [heq]
      simp only [List.filter, hbe, Bool.not_false, lookupFS, List.lookup, hne]
      exact ih h2

theorem unlinkIfExists_of_none (fs : FS) (p : String)
    (h : lookupFS fs p = Option.none) : unlinkIfExists fs p = fs := by
  unfold unlinkIfExists
  induction fs with
  | nil => rfl
  | cons e es ih =>
    have hne : (p == e.1) = false := by
      by_cases he : p = e.1
      · exfalso; simp [lookupFS, List.lookup, he] at h
      · simp [he]
    have hbe : (e.1 == p) = false := by
      simp only [beq_eq_false_iff_ne] at hne
      simp [Ne.symm hne]
    have h2 : lookupFS es p = Option.none := by
      simp only [lookupFS, List.lookup, hne] at h
      exact h
    simp only [List.filter, hbe, Bool.not_false]
    rw [ih h2]

theorem process_file_ok_path (oracle : Context → Except PyError String)
    (cfg : Config) (fs : FS) (path r : String) (fs2 : FS)
    (h : process_file oracle cfg fs path = (.ok r, fs2)) :
    r = cfg.solution_dir ++ "/" ++ pathStem path ++ "_discharge.json" := by
  unfold process_file at h
  cases hl : load_consultation_data fs path with
  | error e =>
    rw [hl] at h
    injection h with h1 h2
    cases h1
  | ok cd =>
    simp only [hl] at h
    rcases hg : generate_discharge_note oracle cfg (to_template_context cd)
      with ⟨r2, c2⟩
    simp only [hg] at h
    cases r2 with
    | error e =>
      injection h with h1 h2
      cases h1
    | ok note =>
      simp only [save_discharge_note, pyOrStr] at h
      injection h with h1 h2
      injection h1 with h3
      exact h3.symm

/-! ### Claim theorems -/

/-- C1 counterexample: the claim says a clinical note supplying an empty
`type` is mapped to "general"; in the code dict.get only falls back to the
default when the key is absent, so the note {"note": "x", "type": ""} maps
to type "" (and "" is not "general"). -/
theorem c1_counterexample :
    c1CheckEmptyTypeDoc = false ∧
    (from_dict emptyTypeNoteDoc).map
        (fun cd => cd.consultation.clinical_notes.map (fun cn => cn.type)) =
      .ok [.str ""] := ⟨rfl, rfl⟩

/-- C1 (amended): every ClinicalNote that from_dict produces comes from a
source entry via the per-entry mapping mkClinicalNote, and that mapping
yields type exactly "general" when the entry omits the `type` key, and
preserves any supplied `type` value verbatim (including empty). -/
theorem c1_type_default :
    (∀ data cd, from_dict data = .ok cd →
      ∀ cn ∈ cd.consultation.clinical_notes, ∃ nd, mkClinicalNote nd = .ok cn) ∧
    (∀ kvs cn, mkClinicalNote (.dict kvs) = .ok cn →
      (List.lookup "type" kvs = Option.none → cn.type = .str "general") ∧
      (∀ t, List.lookup "type" kvs = some t → cn.type = t)) := by
  constructor
  · intro data cd h cn hcn
    exact (mkConsultation_inv data cd.consultation (from_dict_inv data cd h).2).1 cn hcn
  · intro kvs cn h
    rw [mkClinicalNote_dict] at h
    injection h with h2
    subst h2
    constructor
    · intro hl
      rw [show (⟨(List.lookup "note" kvs).getD (.str ""),
            (List.lookup "type" kvs).getD (.str "general")⟩ : ClinicalNote).type =
          (List.lookup "type" kvs).getD (.str "general") from rfl, hl]
      rfl
    · intro t hl
      rw [show (⟨(List.lookup "note" kvs).getD (.str ""),
            (List.lookup "type" kvs).getD (.str "general")⟩ : ClinicalNote).type =
          (List.lookup "type" kvs).getD (.str "general") from rfl, hl]
      rfl

/-- Witness for c1_type_default at the concrete entry {"note": "n"}:
the omitted type maps to "general". -/
theorem c1_type_default_witness :
    (⟨PyVal.str "n", PyVal.str "general"⟩ : ClinicalNote).type =
      PyVal.str "general" :=
  (c1_type_default.2 [("note", PyVal.str "n")]
    ⟨PyVal.str "n", PyVal.str "general"⟩ rfl).1 rfl

/-- C5: mapped patients always have every field populated — any omitted
string field becomes the empty string, omitted neutered becomes false,
omitted microchip becomes Python None — and on the specification's
concrete Max/Wellness document the mapping yields microchip = None, no
clinical notes and no procedures. -/
theorem c5_patient_defaults :
    (∀ data pkvs p, pyGet data "patient" (.dict []) = .ok (.dict pkvs) →
      mkPatient data = .ok p →
      (List.lookup "name" pkvs = Option.none → p.name = .str "") ∧
      (List.lookup "species" pkvs = Option.none → p.species = .str "") ∧
      (List.lookup "breed" pkvs = Option.none → p.breed = .str "") ∧
      (List.lookup "gender" pkvs = Option.none → p.gender = .str "") ∧
      (List.lookup "neutered" pkvs = Option.none → p.neutered = .bool false) ∧
      (List.lookup "date_of_birth" pkvs = Option.none → p.date_of_birth = .str "") ∧
      (List.lookup "weight" pkvs = Option.none → p.weight = .str "") ∧
      (List.lookup "microchip" pkvs = Option.none → p.microchip = PyVal.none)) ∧
    (∃ cd, from_dict specMaxDoc = .ok cd ∧ cd.patient.microchip = PyVal.none ∧
      cd.consultation.clinical_notes = [] ∧
      cd.consultation.treatment_items.procedures = []) := by
  constructor
  · intro data pkvs p h1 h2
    rw [mkPatient_eq data pkvs h1] at h2
    injection h2 with h3
    subst h3
    refine ⟨fun hl => ?_, fun hl => ?_, fun hl => ?_, fun hl => ?_,
      fun hl => ?_, fun hl => ?_, fun hl => ?_, fun hl => ?_⟩
    all_goals simp only [hl]
    all_goals rfl
  · exact ⟨_, rfl, rfl, rfl, rfl⟩

/-- Witness for c5_patient_defaults on the empty document: the mapped
patient's microchip is Python None. -/
theorem c5_patient_defaults_witness :
    (⟨.str "", .str "", .str "", .str "", .bool false, .str "", .str "",
      PyVal.none⟩ : Patient).microchip = PyVal.none :=
  (c5_patient_defaults.1 (.dict []) []
    ⟨.str "", .str "", .str "", .str "", .bool false, .str "", .str "",
      PyVal.none⟩ rfl rfl).2.2.2.2.2.2.2 rfl

/-- C6: every Procedure that from_dict produces comes from a source entry
via mkProcedure, and that mapping yields quantity exactly 1 when the entry
omits the `quantity` key, and takes any supplied value as-is, with no
coercion or positivity check. -/
theorem c6_quantity_default :
    (∀ data cd, from_dict data = .ok cd →
      ∀ pr ∈ cd.consultation.treatment_items.procedures,
        ∃ pd, mkProcedure pd = .ok pr) ∧
    (∀ kvs pr, mkProcedure (.dict kvs) = .ok pr →
      (List.lookup "quantity" kvs = Option.none → pr.quantity = .int 1) ∧
      (∀ q, List.lookup "quantity" kvs = some q → pr.quantity = q)) := by
  constructor
  · intro data cd h pr hpr
    exact (mkConsultation_inv data cd.consultation (from_dict_inv data cd h).2).2 pr hpr
  · intro kvs pr h
    rw [mkProcedure_dict] at h
    injection h with h2
    subst h2
    constructor
    · intro hl
      rw [show (⟨(List.lookup "name" kvs).getD (.str ""),
            (List.lookup "date" kvs).getD .none,
            (List.lookup "time" kvs).getD .none,
            (List.lookup "code" kvs).getD .none,
            (List.lookup "quantity" kvs).getD (.int 1),
            (List.lookup "total_price" kvs).getD .none,
            (List.lookup "currency" kvs).getD .none⟩ : Procedure).quantity =
          (List.lookup "quantity" kvs).getD (.int 1) from rfl, hl]
      rfl
    · intro q hl
      rw [show (⟨(List.lookup "name" kvs).getD (.str ""),
            (List.lookup "date" kvs).getD .none,
            (List.lookup "time" kvs).getD .none,
            (List.lookup "code" kvs).getD .none,
            (List.lookup "quantity" kvs).getD (.int 1),
            (List.lookup "total_price" kvs).getD .none,
            (List.lookup "currency" kvs).getD .none⟩ : Procedure).quantity =
          (List.lookup "quantity" kvs).getD (.int 1) from rfl, hl]
      rfl

/-- Witness for c6_quantity_default at the entry {"name": "X-ray"}:
the omitted quantity maps to 1. -/
theorem c6_quantity_default_witness :
    (⟨PyVal.str "X-ray", PyVal.none, PyVal.none, PyVal.none, PyVal.int 1,
      PyVal.none, PyVal.none⟩ : Procedure).quantity = PyVal.int 1 :=
  (c6_quantity_default.2 [("name", PyVal.str "X-ray")]
    ⟨PyVal.str "X-ray", PyVal.none, PyVal.none, PyVal.none, PyVal.int 1,
      PyVal.none, PyVal.none⟩ rfl).1 rfl

/-- C7: for every mapped record the context projection is total (it is a
plain function) and the produced mapping carries the slots patient,
consultation, clinical_notes, procedures, medicines, prescriptions and
diagnostics, where each collection slot is exactly the corresponding
nested field of the record (clinical_notes aliases
consultation.clinical_notes, procedures/medicines/prescriptions alias
consultation.treatment_items, diagnostics aliases
consultation.diagnostics). -/
theorem c7_context_slots (cd : ConsultationData) :
    List.lookup "patient" (to_template_context cd) = some (.pat cd.patient) ∧
    List.lookup "consultation" (to_template_context cd) =
      some (.cons cd.consultation) ∧
    List.lookup "clinical_notes" (to_template_context cd) =
      some (.notes cd.consultation.clinical_notes) ∧
    List.lookup "procedures" (to_template_context cd) =
      some (.procs cd.consultation.treatment_items.procedures) ∧
    List.lookup "medicines" (to_template_context cd) =
      some (.meds cd.consultation.treatment_items.medicines) ∧
    List.lookup "prescriptions" (to_template_context cd) =
      some (.rxs cd.consultation.treatment_items.prescriptions) ∧
    List.lookup "diagnostics" (to_template_context cd) =
      some (.diags cd.consultation.diagnostics) :=
  ⟨rfl, rfl, rfl, rfl, rfl, rfl, rfl⟩

/-- C9: supplying --template-dir makes the CLI run fail with exit code 1
for every input file and state, because main calls
generator.update_template_dir and DischargeNoteGenerator defines no such
attribute; and --output-dir is parsed but never read, so the run's result
is independent of it. -/
theorem c9_cli_template_dir :
    (∀ (oracle : Context → Except PyError String) (cfg : Config) (fs : FS)
        (args : CliArgs), (args.template_dir).isSome = true →
      cli_main oracle cfg fs args = (1, fs)) ∧
    (∀ (oracle : Context → Except PyError String) (cfg : Config) (fs : FS)
        (file : String) (td : Option String) (od1 od2 : Option String),
      cli_main oracle cfg fs ⟨file, td, od1⟩ =
        cli_main oracle cfg fs ⟨file, td, od2⟩) := by
  constructor
  · intro oracle cfg fs args h
    obtain ⟨file, td, od⟩ := args
    cases td with
    | none => simp at h
    | some t => rfl
  · intro oracle cfg fs file td od1 od2
    rfl

/-- Witness for c9_cli_template_dir: a run with --template-dir "tpl" on an
empty file system exits 1 and writes nothing. -/
theorem c9_cli_template_dir_witness :
    cli_main (fun _ => .ok "n") ⟨"", "solution"⟩ []
      ⟨"f.json", some "tpl", Option.none⟩ = (1, []) :=
  c9_cli_template_dir.1 (fun _ => .ok "n") ⟨"", "solution"⟩ []
    ⟨"f.json", some "tpl", Option.none⟩ rfl

/-- C10: generate_discharge_note stores the configured custom instruction
into the caller's context dict under "custom_instruction" before
rendering, so after the call the caller's context always carries that
key — which the projector never emits — and is therefore no longer the
mapping to_template_context produced. -/
theorem c10_context_mutated (oracle : Context → Except PyError String)
    (cfg : Config) (cd : ConsultationData) :
    List.lookup "custom_instruction"
        ((generate_discharge_note oracle cfg (to_template_context cd)).2 :
          List (String × CtxVal)) = some (.str cfg.custom_instruction) ∧
    List.lookup "custom_instruction"
        (to_template_context cd : List (String × CtxVal)) = Option.none ∧
    (generate_discharge_note oracle cfg (to_template_context cd)).2 ≠
      to_template_context cd := by
  have hsnd : (generate_discharge_note oracle cfg (to_template_context cd)).2 =
      dictSet (to_template_context cd) "custom_instruction"
        (.str cfg.custom_instruction) := by
    unfold generate_discharge_note
    show (match oracle (dictSet (to_template_context cd) "custom_instruction"
        (.str cfg.custom_instruction)) with
      | Except.ok s => (Except.ok s,
          dictSet (to_template_context cd) "custom_instruction"
            (.str cfg.custom_instruction))
      | Except.error e =>
          (Except.error (PyError.exception
            ("Error generating discharge note: " ++ e.message)),
           dictSet (to_template_context cd) "custom_instruction"
             (.str cfg.custom_instruction))).2 = _
    cases oracle (dictSet (to_template_context cd) "custom_instruction"
        (.str cfg.custom_instruction)) <;> rfl
  refine ⟨?_, rfl, ?_⟩
  · rw [hsnd]
    rfl
  · rw [hsnd]
    intro heq
    have h8 : (dictSet (to_template_context cd) "custom_instruction"
        (.str cfg.custom_instruction)).length = 8 := rfl
    rw [heq] at h8
    have h7 : (to_template_context cd).length = 7 := rfl
    rw [h7] at h8
    exact absurd h8 (by decide)

/-- C2 counterexample: {"patient": []} is a decodable JSON object, yet
from_dict fails on it — patient_data.get is called on a list, which has
no `get` attribute — so from_dict does not succeed on every JSON object. -/
theorem c2_counterexample :
    isDictV (PyVal.dict [("patient", .list [])]) = true ∧
    from_dict (.dict [("patient", .list [])]) =
      .error (.attributeError "object has no attribute get") := ⟨rfl, rfl⟩

/-- C2 (amended): from_dict never fails because optional keys or
substructures are missing — it succeeds on every JSON object whose
present substructures have the shapes the code expects, in particular on
the empty object — and it fails on every input that is not a JSON object;
but a decodable object with a wrongly-shaped present substructure also
fails, see the counterexample. -/
theorem c2_total_on_wellshaped :
    (∀ v, WellShapedB v = true → exceptIsOk (from_dict v) = true) ∧
    (∀ v, isDictV v = false → exceptIsOk (from_dict v) = false) := by
  constructor
  · intro v h
    cases v with
    | dict kvs =>
      simp only [WellShapedB, Bool.and_eq_true] at h
      obtain ⟨hp, hc⟩ := h
      obtain ⟨pkvs, hpk⟩ := getD_dict_of_keyOk kvs "patient" hp
      have hpat := mkPatient_eq (.dict kvs) pkvs (by rw [pyGet_dict, hpk])
      obtain ⟨ckvs, hck, hn, ht, hd⟩ := consultationShape_getD kvs "consultation" hc
      obtain ⟨tkvs, htk, hpr, hme, hrx⟩ := treatmentShape_getD ckvs "treatment_items" ht
      obtain ⟨ns, hns⟩ := mapEntries_ok_of_dicts mkClinicalNote
        (fun kvs2 => ⟨_, mkClinicalNote_dict kvs2⟩) _
        (getD_list_of_keyOk ckvs "clinical_notes" hn)
      obtain ⟨ps, hps⟩ := mapEntries_ok_of_dicts mkProcedure
        (fun kvs2 => ⟨_, mkProcedure_dict kvs2⟩) _
        (getD_list_of_keyOk tkvs "procedures" hpr)
      obtain ⟨ms, hms⟩ := mapEntries_ok_of_dicts mkMedicine
        (fun kvs2 => ⟨_, mkMedicine_dict kvs2⟩) _
        (getD_list_of_keyOk tkvs "medicines" hme)
      obtain ⟨rs, hrs⟩ := mapEntries_ok_of_dicts mkPrescription
        (fun kvs2 => ⟨_, mkPrescription_dict kvs2⟩) _
        (getD_list_of_keyOk tkvs "prescriptions" hrx)
      obtain ⟨ds, hds⟩ := mapEntries_ok_of_dicts mkDiagnostic
        (fun kvs2 => ⟨_, mkDiagnostic_dict kvs2⟩) _
        (getD_list_of_keyOk ckvs "diagnostics" hd)
      have hcons := mkConsultation_ok (.dict kvs) ckvs tkvs
        (by rw [pyGet_dict, hck]) htk ns hns ps hps ms hms rs hrs ds hds
      unfold from_dict
      rw [hpat, ok_bind, hcons, ok_bind]
      rfl
    | none => simp [WellShapedB] at h
    | bool b => simp [WellShapedB] at h
    | int n => simp [WellShapedB] at h
    | str s => simp [WellShapedB] at h
    | list xs => simp [WellShapedB] at h
  · intro v h
    cases v with
    | dict kvs => simp [isDictV] at h
    | none => rfl
    | bool b => rfl
    | int n => rfl
    | str s => rfl
    | list xs => rfl

/-- Witness for c2_total_on_wellshaped: the empty JSON object (every key
missing) is well shaped and maps successfully. -/
theorem c2_total_on_wellshaped_witness :
    exceptIsOk (from_dict (.dict [])) = true :=
  c2_total_on_wellshaped.1 (.dict []) rfl

/-- C3: on a source file whose bytes cannot be decoded, process_file
returns the wrapped invalid-JSON ValueError and leaves the file system
unchanged, so no output file is created on the failing run; on a missing
source file it returns the wrapped not-found error instead, again
persisting nothing. -/
theorem c3_decode_error_no_output :
    (∀ (oracle : Context → Except PyError String) (cfg : Config) (fs : FS)
        (path raw : String), lookupFS fs path = some (.undecodable raw) →
      process_file oracle cfg fs path =
        (.error (.valueError ("âŒ Error processing file " ++ path ++ ": " ++
          ("📋 File " ++ path ++ " contains invalid JSON."))), fs)) ∧
    (∀ (oracle : Context → Except PyError String) (cfg : Config) (fs : FS)
        (path : String), lookupFS fs path = Option.none →
      process_file oracle cfg fs path =
        (.error (.valueError ("âŒ Error processing file " ++ path ++ ": " ++
          ("🔍 File " ++ path ++ " not found."))), fs)) := by
  constructor
  · intro oracle cfg fs path raw h
    unfold process_file load_consultation_data
    rw [h]
    rfl
  · intro oracle cfg fs path h
    unfold process_file load_consultation_data
    rw [h]
    rfl

/-- Witness for c3_decode_error_no_output: processing a file holding
undecodable bytes fails with the wrapped invalid-JSON message and the
file system is unchanged. -/
theorem c3_decode_error_no_output_witness :
    process_file (fun _ => .ok "n") ⟨"", "solution"⟩
      [("f.json", .undecodable "not json")] "f.json" =
      (.error (.valueError ("âŒ Error processing file " ++ "f.json" ++ ": " ++
        ("📋 File " ++ "f.json" ++ " contains invalid JSON."))),
       [("f.json", .undecodable "not json")]) :=
  c3_decode_error_no_output.1 (fun _ => .ok "n") ⟨"", "solution"⟩
    [("f.json", .undecodable "not json")] "f.json" "not json" rfl

/-- C4: on a successful run producing note text t, the persisted file is
the JSON object with the single key discharge_note mapping to t, written
with indent 4, at solution_dir/stem(input) + "_discharge.json". -/
theorem c4_persisted_envelope
    (oracle : Context → Except PyError String) (cfg : Config) (fs : FS)
    (path : String) (cd : ConsultationData) (t : String)
    (hload : load_consultation_data fs path = .ok cd)
    (hgen : oracle (dictSet (to_template_context cd) "custom_instruction"
      (.str cfg.custom_instruction)) = .ok t) :
    process_file oracle cfg fs path =
      (.ok (cfg.solution_dir ++ "/" ++ pathStem path ++ "_discharge.json"),
       setFile fs (cfg.solution_dir ++ "/" ++ pathStem path ++ "_discharge.json")
         (.jsonText (.dict [("discharge_note", .str t)]) (some 4))) ∧
    lookupFS (process_file oracle cfg fs path).2
        (cfg.solution_dir ++ "/" ++ pathStem path ++ "_discharge.json") =
      some (.jsonText (.dict [("discharge_note", .str t)]) (some 4)) := by
  have hg : generate_discharge_note oracle cfg (to_template_context cd) =
      (.ok t, dictSet (to_template_context cd) "custom_instruction"
        (.str cfg.custom_instruction)) := by
    unfold generate_discharge_note
    simp only [hgen]
  have hmain : process_file oracle cfg fs path =
      (.ok (cfg.solution_dir ++ "/" ++ pathStem path ++ "_discharge.json"),
       setFile fs (cfg.solution_dir ++ "/" ++ pathStem path ++ "_discharge.json")
         (.jsonText (.dict [("discharge_note", .str t)]) (some 4))) := by
    unfold process_file
    simp only [hload, hg, save_discharge_note, pyOrStr]
  refine ⟨hmain, ?_⟩
  rw [hmain]
  exact lookupFS_setFile_self fs
    (cfg.solution_dir ++ "/" ++ pathStem path ++ "_discharge.json")
    (.jsonText (.dict [("discharge_note", .str t)]) (some 4))

/-- Witness for c4_persisted_envelope: a concrete successful run with the
specification's note text persists exactly the expected envelope. -/
theorem c4_persisted_envelope_witness :
    process_file (fun _ => .ok "Patient recovering well.") ⟨"ci", "solution"⟩
      [("in/f.json", .jsonText (.dict []) Option.none)] "in/f.json" =
      (.ok ("solution" ++ "/" ++ pathStem "in/f.json" ++ "_discharge.json"),
       setFile [("in/f.json", .jsonText (.dict []) Option.none)]
         ("solution" ++ "/" ++ pathStem "in/f.json" ++ "_discharge.json")
         (.jsonText (.dict [("discharge_note",
            .str "Patient recovering well.")]) (some 4))) ∧
    lookupFS (process_file (fun _ => .ok "Patient recovering well.")
        ⟨"ci", "solution"⟩ [("in/f.json", .jsonText (.dict []) Option.none)]
        "in/f.json").2
      ("solution" ++ "/" ++ pathStem "in/f.json" ++ "_discharge.json") =
      some (.jsonText (.dict [("discharge_note",
        .str "Patient recovering well.")]) (some 4)) :=
  c4_persisted_envelope (fun _ => .ok "Patient recovering well.")
    ⟨"ci", "solution"⟩ [("in/f.json", .jsonText (.dict []) Option.none)]
    "in/f.json" emptyDocRecord "Patient recovering well." rfl rfl

/-- C8 counterexample: a failing /upload request (here: the uploaded file
is undecodable) leaves the uploaded temporary input file behind — the
upload endpoint has no cleanup on its failure paths — refuting "removed
on all exit paths" for every request. -/
theorem c8_counterexample :
    exceptIsOk (upload_endpoint (fun _ => .ok "n") ⟨"", "solution"⟩ []
        "a.json" (.undecodable "bad") true).1 = false ∧
    lookupFS (upload_endpoint (fun _ => .ok "n") ⟨"", "solution"⟩ []
        "a.json" (.undecodable "bad") true).2 "temp_uploads/a.json" =
      some (.undecodable "bad") := ⟨rfl, rfl⟩

/-- C8 (amended): cleanup_files is total and leaves the file system
untouched when neither path exists (cleanup of a nonexistent pair
completes without raising); the JSON-body /generate endpoint removes its
temporary input file on every exit path and the generated output file on
success; the /upload endpoint, however, cleans up only after a successful
response (see the counterexample for its failure path). -/
theorem c8_cleanup :
    (∀ fs p q, lookupFS fs p = Option.none → lookupFS fs q = Option.none →
      cleanup_files fs p q = fs) ∧
    (∀ (oracle : Context → Except PyError String) (cfg : Config) (fs : FS)
        (reqId : Nat) (doc : PyVal),
      lookupFS (generate_endpoint oracle cfg fs reqId doc).2 (tempName reqId) =
        Option.none) ∧
    (∀ (oracle : Context → Except PyError String) (cfg : Config) (fs : FS)
        (reqId : Nat) (doc : PyVal) (note : String),
      (generate_endpoint oracle cfg fs reqId doc).1 = .ok note →
      lookupFS (generate_endpoint oracle cfg fs reqId doc).2
          (cfg.solution_dir ++ "/" ++ pathStem (tempName reqId)
            ++ "_discharge.json") = Option.none) := by
  refine ⟨?_, ?_, ?_⟩
  · intro fs p q hp hq
    unfold cleanup_files
    rw [unlinkIfExists_of_none fs p hp, unlinkIfExists_of_none fs q hq]
  · intro oracle cfg fs reqId doc
    simp only [generate_endpoint]
    rcases hpf : process_file oracle cfg
      (setFile fs (tempName reqId) (.jsonText doc Option.none)) (tempName reqId)
      with ⟨r, fs2⟩
    cases r with
    | error e => exact lookupFS_unlink_self fs2 (tempName reqId)
    | ok out =>
      show lookupFS (match read_discharge_note fs2 out with
        | Except.ok note =>
            (Except.ok note,
             unlinkIfExists (unlinkIfExists fs2 (tempName reqId)) out)
        | Except.error e =>
            (Except.error (PyError.httpException 500 e.message),
             unlinkIfExists (unlinkIfExists fs2 (tempName reqId)) out)).2
        (tempName reqId) = Option.none
      cases read_discharge_note fs2 out with
      | ok note =>
        exact lookupFS_unlink_of_none (unlinkIfExists fs2 (tempName reqId))
          (tempName reqId) out (lookupFS_unlink_self fs2 (tempName reqId))
      | error e =>
        exact lookupFS_unlink_of_none (unlinkIfExists fs2 (tempName reqId))
          (tempName reqId) out (lookupFS_unlink_self fs2 (tempName reqId))
  · intro oracle cfg fs reqId doc note hok
    simp only [generate_endpoint] at hok
    simp only [generate_endpoint]
    rcases hpf : process_file oracle cfg
      (setFile fs (tempName reqId) (.jsonText doc Option.none)) (tempName reqId)
      with ⟨r, fs2⟩
    rw [hpf] at hok
    cases r with
    | error e => injection hok
    | ok out =>
      have hpath := process_file_ok_path oracle cfg
        (setFile fs (tempName reqId) (.jsonText doc Option.none))
        (tempName reqId) out fs2 hpf
      show lookupFS (match read_discharge_note fs2 out with
        | Except.ok note =>
            (Except.ok note,
             unlinkIfExists (unlinkIfExists fs2 (tempName reqId)) out)
        | Except.error e =>
            (Except.error (PyError.httpException 500 e.message),
             unlinkIfExists (unlinkIfExists fs2 (tempName reqId)) out)).2
        (cfg.solution_dir ++ "/" ++ pathStem (tempName reqId)
          ++ "_discharge.json") = Option.none
      rw [← hpath]
      cases read_discharge_note fs2 out with
      | ok note2 =>
        exact lookupFS_unlink_self (unlinkIfExists fs2 (tempName reqId)) out
      | error e =>
        exact lookupFS_unlink_self (unlinkIfExists fs2 (tempName reqId)) out

/-- Witness for c8_cleanup: cleaning up a nonexistent pair on the empty
file system is a no-op. -/
theorem c8_cleanup_witness :
    cleanup_files [] "temp_uploads/in.json" "solution/out.json" = [] :=
  c8_cleanup.1 [] "temp_uploads/in.json" "solution/out.json" rfl rfl

/-- Witness for c7_context_slots at a concrete record: the clinical_notes
slot aliases the record's consultation.clinical_notes. -/
theorem c7_context_slots_witness :
    List.lookup "clinical_notes" (to_template_context emptyDocRecord) =
      some (.notes emptyDocRecord.consultation.clinical_notes) :=
  (c7_context_slots emptyDocRecord).2.2.1

/-- Witness for c10_context_mutated at a concrete record and
configuration: after the call the caller's context carries the configured
custom instruction. -/
theorem c10_context_mutated_witness :
    List.lookup "custom_instruction"
        ((generate_discharge_note (fun _ => .ok "n") ⟨"ci", "solution"⟩
          (to_template_context emptyDocRecord)).2 :
          List (String × CtxVal)) = some (.str "ci") :=
  (c10_context_mutated (fun _ => .ok "n") ⟨"ci", "solution"⟩ emptyDocRecord).1

end Provet
